import Mathlib

/-!
Verification development for the Guia Cerrado payment backend
(`backend/app.py`, `backend/pagarme_client.py`, `backend/supabase_client.py`).

Modelling conventions:
* Python optional/loosely-typed JSON fields become `Option` values; a scalar that
  may be an int or a string becomes `PyVal`.
* Python truthiness (`if x:`) is made explicit (`truthyS`, `truthyV`).
* Python floats are modelled as exact fractions with power-of-ten denominators
  (`PyFloat`); `round` uses round-half-to-even as CPython does.  String
  primitives (`strip`, `lower`, `int(str)`) are given structural definitions so
  that everything evaluates inside the kernel.
* Network and database side effects are modelled as data: a request builder
  returns the payload that would be sent (`Except err Request`), and the webhook
  handler returns the list of store calls it attempts, each paired with a `Bool`
  saying whether it succeeded (a per-function failure oracle `FailFlags` decides
  which store calls raise).  Exceptions raised by store calls are propagated or
  swallowed exactly as the `try`/`except` structure of the source dictates.
-/

/-- Loosely-typed scalar as it comes out of a JSON / database row. -/
inductive PyVal where
  | vint (n : Int)
  | vstr (s : String)
deriving DecidableEq

/-- Python truthiness of a scalar. -/
def truthyV : PyVal → Bool
  | .vint n => n != 0
  | .vstr s => s != ""

/-- Python truthiness of an optional string (`None` and `""` are falsy). -/
def truthyS : Option String → Bool
  | none => false
  | some s => s != ""

/-- Python `a or b` on optional strings: `b` when `a` is falsy. -/
def pyOr (a b : Option String) : Option String :=
  if truthyS a then a else b

/-- Python `a or d` where `d` is a defaulting string. -/
def pyOrS (a : Option String) (d : String) : String :=
  match a with
  | none => d
  | some s => if s != "" then s else d

/-- Python `x or d` for a possibly missing scalar (`row.get(k) or d`). -/
def pyOrV (a : Option PyVal) (d : PyVal) : PyVal :=
  match a with
  | none => d
  | some v => if truthyV v then v else d

/-- Whitespace recognized by Python `str.strip()` (the common cases). -/
def isPySpace (c : Char) : Bool :=
  c = ' ' || c = '\t' || c = '\n' || c = '\r'

/-- Python `str.strip()`: drop leading and trailing whitespace. -/
def pyStrip (s : String) : String :=
  ⟨((s.data.dropWhile isPySpace).reverse.dropWhile isPySpace).reverse⟩

/-- ASCII lowering of one character. -/
def lowerChar (c : Char) : Char :=
  if 65 ≤ c.toNat ∧ c.toNat ≤ 90 then Char.ofNat (c.toNat + 32) else c

/-- Python `str.lower()` (ASCII range, which covers every kind value used). -/
def pyLower (s : String) : String :=
  ⟨s.data.map lowerChar⟩

/-- Numeric value of a digit list (valid when all characters are digits). -/
def digitsToNat (l : List Char) : Nat :=
  l.foldl (fun n c => n * 10 + (c.toNat - 48)) 0

/-- Are all characters decimal digits? -/
def allDigits (l : List Char) : Bool :=
  l.all (fun c => c.isDigit)

/-- Python `int(str)`: optional surrounding whitespace, optional sign, digits;
`none` when the conversion raises `ValueError`. -/
def pyStrToInt (s : String) : Option Int :=
  match (pyStrip s).data with
  | [] => none
  | c :: rest =>
    if c = '-' then
      if rest ≠ [] ∧ allDigits rest then some (-(digitsToNat rest : Int)) else none
    else if c = '+' then
      if rest ≠ [] ∧ allDigits rest then some (digitsToNat rest) else none
    else
      if allDigits (c :: rest) then some (digitsToNat (c :: rest)) else none

/-- Python `int(x)` on a scalar: identity on ints, decimal parse on strings,
`none` when the conversion raises (`ValueError`). -/
def pyToInt : PyVal → Option Int
  | .vint n => some n
  | .vstr s => pyStrToInt s

/-- Exact value of a Python float as produced by this code base: a fraction
with a power-of-ten denominator (kept unnormalized so that all arithmetic is
plain integer arithmetic). -/
structure PyFloat where
  num : Int
  den : Nat
deriving DecidableEq

/-- Split a character list at every dot. -/
def splitDotAux : List Char → List Char → List (List Char)
  | [], acc => [acc.reverse]
  | c :: rest, acc =>
    if c = '.' then acc.reverse :: splitDotAux rest [] else splitDotAux rest (c :: acc)

/-- Parse a decimal literal (optional sign, digits, optional fraction) into an
exact fraction, as Python `float(str)` does on plain decimal notation. -/
def parseDecimal (s : String) : Option PyFloat :=
  let t := (pyStrip s).data
  let neg := t.head? = some '-'
  let u := match t with
    | c :: rest => if c = '-' ∨ c = '+' then rest else t
    | [] => t
  match splitDotAux u [] with
  | [a] =>
    if a ≠ [] ∧ allDigits a then
      let n : Int := digitsToNat a
      some ⟨if neg then -n else n, 1⟩
    else none
  | [a, b] =>
    if (a ≠ [] ∨ b ≠ []) ∧ allDigits a ∧ allDigits b then
      let n : Int := digitsToNat a * (10 : Int) ^ b.length + digitsToNat b
      some ⟨if neg then -n else n, 10 ^ b.length⟩
    else none
  | _ => none

/-- Python `float(x)` on a possibly missing scalar; `none` when the conversion
raises (`TypeError` on `None`, `ValueError` on a bad string). -/
def pyFloat : Option PyVal → Option PyFloat
  | none => none
  | some (.vint n) => some ⟨n, 1⟩
  | some (.vstr s) => parseDecimal s

/-- Multiply a float value by a natural constant (`preco_float * 100`). -/
def pyMulNat (x : PyFloat) (m : Nat) : PyFloat :=
  ⟨x.num * m, x.den⟩

/-- Python 3 `round` to an integer (round half to even), on `num/den` with a
positive denominator. -/
def pyRound (x : PyFloat) : Int :=
  let f := x.num.fdiv x.den
  let r2 := 2 * (x.num - f * x.den)
  if r2 < x.den then f
  else if (x.den : Int) < r2 then f + 1
  else if f % 2 = 0 then f else f + 1

namespace PagarmeClient

/-- Error raised by the Pagar.me client: `PagarmeError` with a message, or a
built-in conversion error (`ValueError` / `TypeError`). -/
inductive ClientErr where
  | pagarme (msg : String)
  | valueError
deriving DecidableEq

/-- One entry of `cart_settings.items` in the payment-link request body. -/
structure CartItemReq where
  amount : Int
  name : String
  default_quantity : Int
deriving DecidableEq

/-- The payment-link request body sent to `POST {base}/paymentlinks`
(fields the specification talks about). -/
structure LinkRequest where
  type : String
  name : String
  items : List CartItemReq
  metadata : List (String × String)
  customer_name : String
  customer_email : String
deriving DecidableEq

/-- Embedding of `pagarme_client.criar_link_pagamento` up to the network call:
a returned `LinkRequest` is what gets posted; an `error` is raised before any
network call. -/
def criar_link_pagamento (tipo : Option String) (email nome : String)
    (metadata_extra : List (String × String)) : Except ClientErr LinkRequest :=
  let t := pyLower (tipo.getD "")
  match (if t = "restaurante" then some ((10000 : Int), "Assinatura Restaurante – Guia Cerrado")
         else if t = "membro" then some ((2999 : Int), "Assinatura Membro – Guia Cerrado")
         else none) with
  | none => .error (.pagarme "tipo deve ser restaurante ou membro.")
  | some (amount_cents, item_name) =>
    .ok
      { type := "order"
        name := item_name ++ " (" ++ email ++ ")"
        items := [⟨amount_cents, item_name, 1⟩]
        metadata := ("tipo_assinatura", t) :: metadata_extra
        customer_name := if nome = "" then email else nome
        customer_email := email }

/-- One raw item dict handed to `criar_link_pagamento_pedido`
(`item.get("name")`, `item.get("amount_cents", 0)`, `item.get("quantity", 1)`). -/
structure ItemDict where
  name : Option String
  amount_cents : Option PyVal
  quantity : Option PyVal
deriving DecidableEq

/-- Customer dict for the order checkout. -/
structure Cliente where
  nome : Option String
  email : Option String
  cpf : Option String
  telefone : Option String
  endereco : Option String
deriving DecidableEq

/-- Embedding of the per-item loop of `criar_link_pagamento_pedido`:
`int()` conversions may raise `ValueError`; an item with falsy name,
non-positive amount or non-positive quantity raises `PagarmeError`. -/
def processItens : List ItemDict → Except ClientErr (List CartItemReq)
  | [] => .ok []
  | item :: rest =>
    match pyToInt (item.amount_cents.getD (.vint 0)) with
    | none => .error .valueError
    | some amount_cents =>
      match pyToInt (pyOrV item.quantity (.vint 1)) with
      | none => .error .valueError
      | some quantity =>
        if ¬ truthyS item.name ∨ amount_cents ≤ 0 ∨ quantity ≤ 0 then
          .error (.pagarme "Item inválido ao criar link de pagamento de pedido")
        else
          match processItens rest with
          | .error e => .error e
          | .ok cart => .ok (⟨amount_cents, item.name.getD "", quantity⟩ :: cart)

/-- Embedding of `pagarme_client.criar_link_pagamento_pedido` up to the network
call: validates the item list and the customer, and builds the request body. -/
def criar_link_pagamento_pedido (numero_compra : String) (itens : List ItemDict)
    (cliente : Cliente) (metadata_extra : List (String × String)) :
    Except ClientErr LinkRequest :=
  if itens = [] then
    .error (.pagarme "Lista de itens vazia ao criar link de pagamento de pedido.")
  else
    match processItens itens with
    | .error e => .error e
    | .ok cart_items =>
      let nome_cliente := pyOrS cliente.nome (pyOrS cliente.email "Cliente")
      if ¬ truthyS cliente.email then
        .error (.pagarme "Email do cliente é obrigatório para criar o link do pedido.")
      else
        .ok
          { type := "order"
            name := "Pedido " ++ numero_compra ++ " – Guia Cerrado"
            items := cart_items
            metadata := ("tipo", "pedido") :: ("numero_compra", numero_compra) :: metadata_extra
            customer_name := nome_cliente
            customer_email := cliente.email.getD "" }

/-- Total amount carried by a request body: sum of per-item amount × quantity. -/
def requestTotalCents (req : LinkRequest) : Int :=
  (req.items.map (fun i => i.amount * i.default_quantity)).sum

end PagarmeClient

/-! Webhook payload shape: `{type, data: {id, metadata: {...}}}` with the
metadata keys the handler reads. -/

/-- Metadata embedded in a webhook event (round-tripped from link creation). -/
structure Metadata where
  payment_link_id : Option String
  tipo : Option String
  tipo_assinatura : Option String
  numero_compra : Option String
deriving DecidableEq

/-- Empty metadata dict (`metadata.get(k)` yields `None` for every key). -/
def Metadata.empty : Metadata := ⟨none, none, none, none⟩

/-- The `data` object of a webhook event. -/
structure WebhookData where
  id : Option String
  metadata : Option Metadata
deriving DecidableEq

/-- Empty `data` object. -/
def WebhookData.empty : WebhookData := ⟨none, none⟩

/-- A parsed webhook body. -/
structure WebhookPayload where
  type : Option String
  data : Option WebhookData
deriving DecidableEq

/-- Empty payload (`payload = {}` after a parse failure). -/
def WebhookPayload.empty : WebhookPayload := ⟨none, none⟩

namespace SupabaseClient

/-- Row of the `pagamentos` table (subscription payment record). -/
structure PagamentoRow where
  user_id : Option String
  email : String
  tipo : String
  payment_link_id : Option String
  order_id : Option String
  pagarme_status : String
  origem : String
  created_at : String
  updated_at : String
deriving DecidableEq

/-- Row of the `pedidos_header` table (order header). -/
structure PedidoHeaderRow where
  numero_compra : String
  total : ℚ
  status : String
  pagarme_transaction_id : Option String
  pagarme_checkout_url : Option String
  updated_at : String
deriving DecidableEq

/-- Row of the `pedidos` table (order line item). -/
structure PedidoRow where
  numero_compra : String
  status : String
  prato : Option String
  preco : Option PyVal
  quantidade : Option PyVal
  created_at : String
deriving DecidableEq

/-- The backing store: the four tables this backend touches. -/
structure DB where
  pagamentos : List PagamentoRow
  pedidos_header : List PedidoHeaderRow
  pedidos : List PedidoRow
  webhooks_pagarme : List (String × WebhookPayload)
deriving DecidableEq

/-- Embedding of `listar_itens_carrinho`: all `pedidos` rows for the purchase
reference whose status is `carrinho` (row order preserved). -/
def listar_itens_carrinho (db : DB) (numero_compra : String) : List PedidoRow :=
  db.pedidos.filter (fun r => r.numero_compra = numero_compra ∧ r.status = "carrinho")

/-- The `update_data` payload built by `atualizar_status_pedido`; the
`pagarme_transaction_id` component is `none` exactly when the key is absent
from the payload. -/
structure StatusUpdateData where
  status : String
  updated_at : String
  pagarme_transaction_id : Option String
deriving DecidableEq

/-- Embedding of the payload construction in `atualizar_status_pedido`: the
transaction id is included only when it is truthy (non-`None`, non-empty). -/
def atualizar_status_pedido_update_data (novo_status : String)
    (pagarme_transaction_id : Option String) (now : String) : StatusUpdateData :=
  { status := novo_status
    updated_at := now
    pagarme_transaction_id :=
      if truthyS pagarme_transaction_id then pagarme_transaction_id else none }

/-- Effect of a `pedidos_header` update payload on one matched row: a field is
overwritten exactly when it is present in the payload. -/
def applyStatusUpdate (u : StatusUpdateData) (h : PedidoHeaderRow) : PedidoHeaderRow :=
  { h with
    status := u.status
    updated_at := u.updated_at
    pagarme_transaction_id :=
      match u.pagarme_transaction_id with
      | some t => some t
      | none => h.pagarme_transaction_id }

end SupabaseClient

namespace App

open SupabaseClient PagarmeClient

/-- Failure oracle: which store functions raise (`SupabaseError`) when called. -/
structure FailFlags where
  salvarWebhook : Bool
  atualizarPagamentoLink : Bool
  atualizarPagamentoOrder : Bool
  atualizarStatusPedido : Bool
  marcarItens : Bool
deriving DecidableEq

/-- All store calls succeed. -/
def noFailFlags : FailFlags := ⟨false, false, false, false, false⟩

/-- One store call attempted by the webhook handler, with its arguments. -/
inductive Call where
  | salvarWebhook (event_type : String) (payload : WebhookPayload)
  | atualizarPagamentoPorPaymentLink (payment_link_id : String) (novo_status : String)
      (extra_order_id : Option String)
  | atualizarPagamentoPorOrderId (order_id : String) (novo_status : String)
  | atualizarStatusPedido (numero_compra : String) (novo_status : String)
      (pagarme_transaction_id : Option String)
  | marcarItensComStatus (numero_compra : String) (status : String)
deriving DecidableEq

/-- The `data_obj = payload.get("data", {}) or {}` step. -/
def dataObjOf (p : WebhookPayload) : WebhookData := p.data.getD WebhookData.empty

/-- The `metadata = data_obj.get("metadata") or {}` step. -/
def metadataOf (p : WebhookPayload) : Metadata :=
  (dataObjOf p).metadata.getD Metadata.empty

/-- The membership test `event_type in ("order.paid", "charge.paid", "checkout.closed")`. -/
def recognizedEvent (et : Option String) : Bool :=
  et == some "order.paid" || et == some "charge.paid" || et == some "checkout.closed"

/-- Status derived for the order flow from the event type. -/
def novoStatusPedido (event_type : String) : String :=
  if event_type = "order.paid" ∨ event_type = "charge.paid" then "pago"
  else if event_type = "checkout.closed" then "cancelado"
  else "desconhecido"

/-- Payment-record update attempted for a recognized event (the
`if payment_link_id / elif order_id` routing). -/
def paymentPart (p : WebhookPayload) (fl : FailFlags) : List (Call × Bool) :=
  let md := metadataOf p
  let oid := (dataObjOf p).id
  let st := p.type.getD ""
  if truthyS md.payment_link_id then
    [(.atualizarPagamentoPorPaymentLink (md.payment_link_id.getD "") st
        (if truthyS oid then some (oid.getD "") else none), !fl.atualizarPagamentoLink)]
  else if truthyS oid then
    [(.atualizarPagamentoPorOrderId (oid.getD "") st, !fl.atualizarPagamentoOrder)]
  else []

/-- Whether the payment-record update raises; such an exception is caught only
by the handler's outer `except`, aborting the rest of the recognized-event block. -/
def paymentRaised (p : WebhookPayload) (fl : FailFlags) : Bool :=
  if truthyS (metadataOf p).payment_link_id then fl.atualizarPagamentoLink
  else if truthyS (dataObjOf p).id then fl.atualizarPagamentoOrder
  else false

/-- The `tipo == "pedido" and numero_compra` guard of the order flow. -/
def pedidoCondition (p : WebhookPayload) : Bool :=
  pyOr (metadataOf p).tipo (metadataOf p).tipo_assinatura == some "pedido"
    && truthyS (metadataOf p).numero_compra

/-- Order-record updates attempted inside the inner `try`: the header update,
then — only if it did not raise — the line-item bulk update; either failure is
caught by the inner `except`. -/
def orderPart (p : WebhookPayload) (fl : FailFlags) : List (Call × Bool) :=
  let md := metadataOf p
  let nc := md.numero_compra.getD ""
  let stp := novoStatusPedido (p.type.getD "")
  if fl.atualizarStatusPedido then
    [(.atualizarStatusPedido nc stp (dataObjOf p).id, false)]
  else
    [(.atualizarStatusPedido nc stp (dataObjOf p).id, true),
     (.marcarItensComStatus nc stp, !fl.marcarItens)]

/-- Store calls attempted by one run of `webhook_pagarme`, in program order,
each paired with whether it succeeded.  `parsed = none` models a body that is
not parseable as JSON (`payload = {}`). -/
def webhookTrace (parsed : Option WebhookPayload) (fl : FailFlags) : List (Call × Bool) :=
  let p := parsed.getD WebhookPayload.empty
  let audit : Call × Bool := (.salvarWebhook (p.type.getD "") p, !fl.salvarWebhook)
  if recognizedEvent p.type then
    if paymentRaised p fl then audit :: paymentPart p fl
    else if pedidoCondition p then audit :: (paymentPart p fl ++ orderPart p fl)
    else audit :: paymentPart p fl
  else [audit]

/-- HTTP response of the webhook endpoint. -/
structure WebhookResponse where
  received : Bool
  status : Nat
deriving DecidableEq

/-- Embedding of the route `POST /webhook/pagarme`: every store exception is
caught (audit insert by its own `try`, the rest by the outer/inner `try`
blocks), so the handler always reaches its single `return`. -/
def webhook_pagarme (parsed : Option WebhookPayload) (fl : FailFlags) :
    List (Call × Bool) × WebhookResponse :=
  (webhookTrace parsed fl, ⟨true, 200⟩)

/-- Effect of one successful store call on the backing store (`now` is the
timestamp the store functions stamp into `updated_at` / `received_at`). -/
def applyCall (now : String) (db : DB) : Call → DB
  | .salvarWebhook e p =>
    { db with webhooks_pagarme := db.webhooks_pagarme ++ [(e, p)] }
  | .atualizarPagamentoPorPaymentLink link st extra =>
    { db with
      pagamentos := db.pagamentos.map fun r =>
        if r.payment_link_id = some link then
          { r with
            pagarme_status := st
            updated_at := now
            order_id := match extra with | some o => some o | none => r.order_id }
        else r }
  | .atualizarPagamentoPorOrderId oid st =>
    { db with
      pagamentos := db.pagamentos.map fun r =>
        if r.order_id = some oid then
          { r with pagarme_status := st, updated_at := now }
        else r }
  | .atualizarStatusPedido nc st tx =>
    { db with
      pedidos_header := db.pedidos_header.map fun h =>
        if h.numero_compra = nc then
          applyStatusUpdate (atualizar_status_pedido_update_data st tx now) h
        else h }
  | .marcarItensComStatus nc st =>
    { db with
      pedidos := db.pedidos.map fun r =>
        if r.numero_compra = nc then { r with status := st } else r }

/-- Apply the successful calls of a trace to the store, in order. -/
def applyTrace (now : String) (db : DB) (t : List (Call × Bool)) : DB :=
  t.foldl (fun s e => if e.2 then applyCall now s e.1 else s) db

/-- Store state after one webhook delivery. -/
def runWebhookDB (parsed : Option WebhookPayload) (fl : FailFlags)
    (now : String) (db : DB) : DB :=
  applyTrace now db (webhookTrace parsed fl)

/-! Classification helpers on store calls. -/

/-- Is this an update of `pagamentos` by payment-link id? -/
def isLinkUpdate : Call → Bool
  | .atualizarPagamentoPorPaymentLink _ _ _ => true
  | _ => false

/-- Is this an update of `pagamentos` by order id? -/
def isOrderIdUpdate : Call → Bool
  | .atualizarPagamentoPorOrderId _ _ => true
  | _ => false

/-- Is this any update of the payment record (`pagamentos`)? -/
def isPaymentUpdate (c : Call) : Bool := isLinkUpdate c || isOrderIdUpdate c

/-- Is this an update of the order record (`pedidos_header` or `pedidos`)? -/
def isOrderRecordUpdate : Call → Bool
  | .atualizarStatusPedido _ _ _ => true
  | .marcarItensComStatus _ _ => true
  | _ => false

/-- Does this call carry the order status `desconhecido`? -/
def usesDesconhecido : Call → Bool
  | .atualizarStatusPedido _ s _ => s == "desconhecido"
  | .marcarItensComStatus _ s => s == "desconhecido"
  | _ => false

/-! Subscription checkout flow (`criar_link_pagamento` in `app.py` and the
route `POST /api/criar-checkout`). -/

/-- Embedding of the `criar_link_pagamento` defined in `app.py` (test prices of
one cent), up to the network call. -/
def criar_link_pagamento (tipo : Option String) (email nome : String)
    (metadata_extra : List (String × String)) : Except String PagarmeClient.LinkRequest :=
  let t := pyLower (tipo.getD "")
  match (if t = "restaurante" then some ((1 : Int), "Assinatura Restaurante – Guia Cerrado")
         else if t = "membro" then some ((1 : Int), "Assinatura Membro – Guia Cerrado")
         else none) with
  | none => .error "tipo deve ser restaurante ou membro."
  | some (amount_cents, item_name) =>
    .ok
      { type := "order"
        name := item_name ++ " (" ++ email ++ ")"
        items := [⟨amount_cents, item_name, 1⟩]
        metadata := ("tipo_assinatura", t) :: metadata_extra
        customer_name := if nome = "" then email else nome
        customer_email := email }

/-- Request body of `POST /api/criar-checkout`; `none` for a field the caller
omitted. -/
structure SubBody where
  tipo : Option String
  email : Option String
  nome : Option String
  user_id : Option String
  origem : Option String
deriving DecidableEq

/-- Normalized provider response (`pagarme_link` JSON) as the route reads it. -/
structure LinkJson where
  id : Option String
  url : Option String
  status : Option String
deriving DecidableEq

/-- JSON response of a checkout route, together with its HTTP status. -/
structure ApiResponse where
  status : Nat
  ok : Bool
  error : Option String
  checkout_url : Option String
  payment_link_id : Option String
  pagarme : Option LinkJson
deriving DecidableEq

/-- Embedding of the route `POST /api/criar-checkout`.  `body = none` models an
unparseable JSON body; `provider` is the outcome of the provider call (used only
if validation passes); `persistFails` says whether `salvar_pagamento_supabase`
raises.  The second component lists the attempted store inserts with their
outcome: the `try`/`except` around the insert swallows its failure. -/
def api_criar_checkout (body : Option SubBody) (provider : Except String LinkJson)
    (persistFails : Bool) : ApiResponse × List (String × Bool) :=
  match body with
  | none => (⟨400, false, some "JSON inválido", none, none, none⟩, [])
  | some data =>
    let tipo := pyLower (data.tipo.getD "")
    let email := pyStrip (data.email.getD "")
    if email = "" then
      (⟨400, false, some "Campo email é obrigatório.", none, none, none⟩, [])
    else if tipo ≠ "restaurante" ∧ tipo ≠ "membro" then
      (⟨400, false, some "Campo tipo deve ser restaurante ou membro.", none, none, none⟩, [])
    else
      match provider with
      | .error e => (⟨502, false, some e, none, none, none⟩, [])
      | .ok link =>
        (⟨200, true, none, link.url, link.id, some link⟩,
         [("salvar_pagamento_supabase", !persistFails)])

/-! Cart checkout flow (`POST /api/pedidos/checkout`). -/

/-- Quantity coercion of the cart loop: `row.get("quantidade") or 1`, then
`int(...)` with `except → 1`, then `<= 0 → 1`. -/
def coagir_quantidade (q : Option PyVal) : Int :=
  match pyToInt (pyOrV q (.vint 1)) with
  | none => 1
  | some n => if n ≤ 0 then 1 else n

/-- Item name of the cart loop: `row.get("prato") or "Item"`. -/
def pratoOf (r : SupabaseClient.PedidoRow) : String := pyOrS r.prato "Item"

/-- Per-item amount in minor units: `int(round(float(preco) * 100))`, with a
missing or unparseable price treated as failure (handled by `montar_itens`). -/
def rowCents (r : SupabaseClient.PedidoRow) : Int :=
  pyRound (pyMulNat ((pyFloat r.preco).getD ⟨0, 1⟩) 100)

/-- Embedding of the item loop of `api_pedidos_checkout`: builds the Pagar.me
item dicts and accumulates `total_cents`; the first unparseable price aborts
with a 500 error naming the item. -/
def montar_itens : List SupabaseClient.PedidoRow →
    Except (Nat × String) (List PagarmeClient.ItemDict × Int)
  | [] => .ok ([], 0)
  | row :: rest =>
    let prato := pratoOf row
    match pyFloat row.preco with
    | none => .error (500, "Preço inválido para o item: " ++ prato)
    | some preco_float =>
      let quantidade := coagir_quantidade row.quantidade
      let amount_cents := pyRound (pyMulNat preco_float 100)
      match montar_itens rest with
      | .error e => .error e
      | .ok (its, total) =>
        .ok (⟨some prato, some (.vint amount_cents), some (.vint quantidade)⟩ :: its,
             amount_cents * quantidade + total)

/-- Embedding of `POST /api/pedidos/checkout` up to (and including) the
construction of the provider request: an `ok (total_cents, req)` result means
the provider is called with body `req`; any `error (code, msg)` is returned to
the caller before the provider call succeeds — for 400/500 validation errors,
before any provider call at all. -/
def api_pedidos_checkout (numero_compra : Option String)
    (cliente : PagarmeClient.Cliente) (db : SupabaseClient.DB) :
    Except (Nat × String) (Int × PagarmeClient.LinkRequest) :=
  let nc := pyStrip (numero_compra.getD "")
  if nc = "" then .error (400, "numero_compra é obrigatório.")
  else if ¬ truthyS cliente.email then .error (400, "email do cliente é obrigatório.")
  else
    let itens_carrinho := SupabaseClient.listar_itens_carrinho db nc
    if itens_carrinho = [] then
      .error (400, "Carrinho vazio para este número de compra.")
    else
      match montar_itens itens_carrinho with
      | .error e => .error e
      | .ok (itens_pagarme, total_cents) =>
        match PagarmeClient.criar_link_pagamento_pedido nc itens_pagarme cliente
            [("origem", "pedido_marmita")] with
        | .error (.pagarme m) => .error (502, "Pagarme: " ++ m)
        | .error .valueError => .error (500, "Erro ao criar link de pagamento")
        | .ok req => .ok (total_cents, req)

/-- Total in minor units computed directly from the cart rows:
sum of per-item minor-unit price × coerced quantity. -/
def rowsTotalCents (rows : List SupabaseClient.PedidoRow) : Int :=
  (rows.map (fun r => rowCents r * coagir_quantidade r.quantidade)).sum

end App

/-- The item dict `api_pedidos_checkout` builds from one cart row. -/
def mkItemDict (r : SupabaseClient.PedidoRow) : PagarmeClient.ItemDict :=
  ⟨some (App.pratoOf r), some (.vint (App.rowCents r)),
   some (.vint (App.coagir_quantidade r.quantidade))⟩

/-- The `cart_settings` entry that ends up in the provider request for one
cart row. -/
def mkCartReq (r : SupabaseClient.PedidoRow) : PagarmeClient.CartItemReq :=
  ⟨App.rowCents r, App.pratoOf r, App.coagir_quantidade r.quantidade⟩

/-! Concrete sample inputs used by witnesses and counterexamples. -/

/-- A recognized paid-event payload for the order flow: link id, order id,
order discriminator and purchase reference all present. -/
def exPedidoPayload : WebhookPayload :=
  ⟨some "order.paid",
   some ⟨some "o1", some ⟨some "pl_1", some "pedido", none, some "GC-9"⟩⟩⟩

/-- Failure oracle where only `atualizar_pagamento_por_payment_link` raises. -/
def exFailLink : App.FailFlags := ⟨false, true, false, false, false⟩

/-- A customer dict with a truthy email. -/
def exCliente : PagarmeClient.Cliente :=
  ⟨some "Fulano", some "fulano@exemplo.com", none, none, none⟩

/-- A store with one order header and two cart rows for purchase `GC-9`. -/
def exDB : SupabaseClient.DB :=
  ⟨[],
   [⟨"GC-9", 0, "aguardando_pagamento", none, none, "t0"⟩],
   [⟨"GC-9", "carrinho", some "Frango", some (.vstr "29.90"), some (.vint 2), "t0"⟩,
    ⟨"GC-9", "carrinho", some "Arroz", some (.vint 10), none, "t0"⟩],
   []⟩

/-- A subscription checkout body with valid email and tier. -/
def exSubBody : App.SubBody :=
  ⟨some "membro", some "fulano@exemplo.com", some "Fulano", some "u1", none⟩

/-- A provider link response. -/
def exLinkJson : App.LinkJson := ⟨some "pl_77", some "https://pay.example/pl_77", some "active"⟩





/-! Helper lemmas. -/

/-- The coerced quantity of a cart row is always at least 1. -/
theorem coagir_quantidade_pos (q : Option PyVal) : 1 ≤ App.coagir_quantidade q := by
  unfold App.coagir_quantidade
  cases h : pyToInt (pyOrV q (.vint 1)) with
  | none => simp
  | some n => simp only; split <;> omega

/-- A `pyOrS`-defaulted name with non-empty default is non-empty. -/
theorem pyOrS_ne_empty (a : Option String) (d : String) (hd : d ≠ "") :
    pyOrS a d ≠ "" := by
  unfold pyOrS
  cases a with
  | none => exact hd
  | some s =>
    dsimp only
    by_cases h : (s != "") = true
    · rw [if_pos h]
      simpa using h
    · rw [if_neg h]
      exact hd

/-- The audit insert is always the first store call of a webhook run. -/
theorem webhookTrace_head (parsed : Option WebhookPayload) (fl : App.FailFlags) :
    (App.webhookTrace parsed fl).head? =
      some (App.Call.salvarWebhook ((parsed.getD WebhookPayload.empty).type.getD "")
        (parsed.getD WebhookPayload.empty), !fl.salvarWebhook) := by
  unfold App.webhookTrace
  dsimp only
  split_ifs <;> rfl

/-! Claim C10. -/

/-- C10: `atualizar_status_pedido` puts the provider transaction id into the
update payload only when it is truthy; with `None` or `""` the payload carries
only status and `updated_at`, so the stored id is left unchanged, and a
non-empty id is the only case that overwrites the stored field. -/
theorem atualizar_status_pedido_transaction_id_frame
    (st now : String) (tx : Option String) (h : SupabaseClient.PedidoHeaderRow) :
    ((tx = none ∨ tx = some "") →
      (SupabaseClient.atualizar_status_pedido_update_data st tx now).pagarme_transaction_id = none
      ∧ (SupabaseClient.applyStatusUpdate
          (SupabaseClient.atualizar_status_pedido_update_data st tx now) h).pagarme_transaction_id
        = h.pagarme_transaction_id)
    ∧ (∀ s : String, tx = some s → s ≠ "" →
      (SupabaseClient.atualizar_status_pedido_update_data st tx now).pagarme_transaction_id = some s
      ∧ (SupabaseClient.applyStatusUpdate
          (SupabaseClient.atualizar_status_pedido_update_data st tx now) h).pagarme_transaction_id
        = some s)
    ∧ (SupabaseClient.atualizar_status_pedido_update_data st tx now).status = st
    ∧ (SupabaseClient.atualizar_status_pedido_update_data st tx now).updated_at = now := by
  refine ⟨?_, ?_, rfl, rfl⟩
  · rintro (rfl | rfl) <;>
      simp [SupabaseClient.atualizar_status_pedido_update_data,
        SupabaseClient.applyStatusUpdate, truthyS]
  · rintro s rfl hs
    simp [SupabaseClient.atualizar_status_pedido_update_data,
      SupabaseClient.applyStatusUpdate, truthyS, hs]

/-- Witness for C10 at a concrete header row. -/
theorem atualizar_status_pedido_transaction_id_frame_witness :
    ((none : Option String) = none ∨ (none : Option String) = some "")
    ∧ ((SupabaseClient.atualizar_status_pedido_update_data "pago" none "t1").pagarme_transaction_id = none
      ∧ (SupabaseClient.applyStatusUpdate
          (SupabaseClient.atualizar_status_pedido_update_data "pago" none "t1")
          ⟨"GC-1", 0, "aguardando_pagamento", some "tx0", none, "t0"⟩).pagarme_transaction_id
        = some "tx0")
    ∧ ((SupabaseClient.applyStatusUpdate
          (SupabaseClient.atualizar_status_pedido_update_data "pago" (some "tx9") "t1")
          ⟨"GC-1", 0, "aguardando_pagamento", some "tx0", none, "t0"⟩).pagarme_transaction_id
        = some "tx9") :=
  ⟨Or.inl rfl,
   (atualizar_status_pedido_transaction_id_frame "pago" "t1" none
      ⟨"GC-1", 0, "aguardando_pagamento", some "tx0", none, "t0"⟩).1 (Or.inl rfl),
   ((atualizar_status_pedido_transaction_id_frame "pago" "t1" (some "tx9")
      ⟨"GC-1", 0, "aguardando_pagamento", some "tx0", none, "t0"⟩).2.1 "tx9" rfl
      (by decide)).2⟩

/-! Claim C3. -/

/-- C3: for every webhook body — parseable or not — and every pattern of store
failures, the handler responds `{received: true}` with HTTP 200, and the audit
insert is always the first store call attempted; when the body is unparseable
the audit insert is attempted with the empty event type and empty payload. -/
theorem webhook_always_acks (parsed : Option WebhookPayload) (fl : App.FailFlags) :
    (App.webhook_pagarme parsed fl).2 = ⟨true, 200⟩
    ∧ (App.webhook_pagarme parsed fl).1.head? =
        some (App.Call.salvarWebhook ((parsed.getD WebhookPayload.empty).type.getD "")
          (parsed.getD WebhookPayload.empty), !fl.salvarWebhook)
    ∧ (App.webhook_pagarme none fl).1.head? =
        some (App.Call.salvarWebhook "" WebhookPayload.empty, !fl.salvarWebhook) :=
  ⟨rfl, webhookTrace_head parsed fl, webhookTrace_head none fl⟩

/-! Claim C5. -/

/-- C5: each of the two valid subscription kinds selects its fixed price in
minor units and its fixed display name in the request payload (both in the
Pagar.me client and in the `app.py` variant), and every other kind value fails
before the request payload is ever built, hence before any network call. -/
theorem subscription_link_fixed_price_and_name :
    (∀ (email nome : String) (extra : List (String × String)),
      ∃ req, PagarmeClient.criar_link_pagamento (some "membro") email nome extra = .ok req
        ∧ req.items = [⟨2999, "Assinatura Membro – Guia Cerrado", 1⟩])
    ∧ (∀ (email nome : String) (extra : List (String × String)),
      ∃ req, PagarmeClient.criar_link_pagamento (some "restaurante") email nome extra = .ok req
        ∧ req.items = [⟨10000, "Assinatura Restaurante – Guia Cerrado", 1⟩])
    ∧ (∀ (tipo : Option String) (email nome : String) (extra : List (String × String)),
        pyLower (tipo.getD "") ≠ "restaurante" → pyLower (tipo.getD "") ≠ "membro" →
        PagarmeClient.criar_link_pagamento tipo email nome extra
          = .error (.pagarme "tipo deve ser restaurante ou membro."))
    ∧ (∀ (email nome : String) (extra : List (String × String)),
      ∃ req, App.criar_link_pagamento (some "membro") email nome extra = .ok req
        ∧ req.items = [⟨1, "Assinatura Membro – Guia Cerrado", 1⟩])
    ∧ (∀ (email nome : String) (extra : List (String × String)),
      ∃ req, App.criar_link_pagamento (some "restaurante") email nome extra = .ok req
        ∧ req.items = [⟨1, "Assinatura Restaurante – Guia Cerrado", 1⟩])
    ∧ (∀ (tipo : Option String) (email nome : String) (extra : List (String × String)),
        pyLower (tipo.getD "") ≠ "restaurante" → pyLower (tipo.getD "") ≠ "membro" →
        App.criar_link_pagamento tipo email nome extra
          = .error "tipo deve ser restaurante ou membro.") := by
  refine ⟨?_, ?_, ?_, ?_, ?_, ?_⟩
  · intro email nome extra; exact ⟨_, rfl, rfl⟩
  · intro email nome extra; exact ⟨_, rfl, rfl⟩
  · intro tipo email nome extra h1 h2
    unfold PagarmeClient.criar_link_pagamento
    simp [h1, h2]
  · intro email nome extra; exact ⟨_, rfl, rfl⟩
  · intro email nome extra; exact ⟨_, rfl, rfl⟩
  · intro tipo email nome extra h1 h2
    unfold App.criar_link_pagamento
    simp [h1, h2]

/-- Witness for C5 at concrete inputs, including an invalid kind. -/
theorem subscription_link_fixed_price_and_name_witness :
    (∃ req, PagarmeClient.criar_link_pagamento (some "membro") "a@b.c" "A" [] = .ok req
      ∧ req.items = [⟨2999, "Assinatura Membro – Guia Cerrado", 1⟩])
    ∧ pyLower ((some "empresa" : Option String).getD "") ≠ "restaurante"
    ∧ pyLower ((some "empresa" : Option String).getD "") ≠ "membro"
    ∧ PagarmeClient.criar_link_pagamento (some "empresa") "a@b.c" "A" []
        = .error (.pagarme "tipo deve ser restaurante ou membro.") :=
  ⟨subscription_link_fixed_price_and_name.1 "a@b.c" "A" [],
   by decide, by decide,
   subscription_link_fixed_price_and_name.2.2.1 (some "empresa") "a@b.c" "A" []
     (by decide) (by decide)⟩

/-! Claim C8. -/

/-- C8: in the subscription checkout, when the provider link creation succeeds
but persisting the payment record fails, the failure is swallowed: the response
is 200 with `ok = true`, the checkout URL and the provider link id, identical
to the response when persistence succeeds; the insert is attempted either way. -/
theorem subscription_persist_failure_not_surfaced (data : App.SubBody) (link : App.LinkJson)
    (hemail : pyStrip (data.email.getD "") ≠ "")
    (htipo : pyLower (data.tipo.getD "") = "restaurante" ∨ pyLower (data.tipo.getD "") = "membro") :
    (App.api_criar_checkout (some data) (.ok link) true).1
      = (App.api_criar_checkout (some data) (.ok link) false).1
    ∧ (App.api_criar_checkout (some data) (.ok link) true).1
      = ⟨200, true, none, link.url, link.id, some link⟩
    ∧ (App.api_criar_checkout (some data) (.ok link) true).2
      = [("salvar_pagamento_supabase", false)]
    ∧ (App.api_criar_checkout (some data) (.ok link) false).2
      = [("salvar_pagamento_supabase", true)] := by
  have hcase : ¬ (pyLower (data.tipo.getD "") ≠ "restaurante"
      ∧ pyLower (data.tipo.getD "") ≠ "membro") := by tauto
  unfold App.api_criar_checkout
  simp [hemail, hcase]

/-- Witness for C8 at a concrete body and provider link. -/
theorem subscription_persist_failure_not_surfaced_witness :
    (pyStrip (exSubBody.email.getD "") ≠ "")
    ∧ (pyLower (exSubBody.tipo.getD "") = "restaurante"
        ∨ pyLower (exSubBody.tipo.getD "") = "membro")
    ∧ ((App.api_criar_checkout (some exSubBody) (.ok exLinkJson) true).1
        = (App.api_criar_checkout (some exSubBody) (.ok exLinkJson) false).1
      ∧ (App.api_criar_checkout (some exSubBody) (.ok exLinkJson) true).1
        = ⟨200, true, none, exLinkJson.url, exLinkJson.id, some exLinkJson⟩
      ∧ (App.api_criar_checkout (some exSubBody) (.ok exLinkJson) true).2
        = [("salvar_pagamento_supabase", false)]
      ∧ (App.api_criar_checkout (some exSubBody) (.ok exLinkJson) false).2
        = [("salvar_pagamento_supabase", true)]) :=
  ⟨by decide, Or.inr (by decide),
   subscription_persist_failure_not_surfaced exSubBody exLinkJson (by decide)
     (Or.inr (by decide))⟩

/-! Trace shape lemmas for the webhook handler. -/

/-- Every entry of the payment-update part is a payment-record update, not an
order-record update, and carries no order status. -/
theorem paymentPart_mem (p : WebhookPayload) (fl : App.FailFlags) :
    ∀ e ∈ App.paymentPart p fl,
      App.isPaymentUpdate e.1 = true ∧ App.isOrderRecordUpdate e.1 = false
        ∧ App.usesDesconhecido e.1 = false := by
  intro e he
  unfold App.paymentPart at he
  dsimp only at he
  split_ifs at he <;>
    first
      | exact absurd he (List.not_mem_nil e)
      | (simp only [List.mem_singleton] at he
         subst he
         exact ⟨rfl, rfl, rfl⟩)

/-- Every entry of the order-update part is an order-record update and not a
payment-record update. -/
theorem orderPart_mem (p : WebhookPayload) (fl : App.FailFlags) :
    ∀ e ∈ App.orderPart p fl,
      App.isOrderRecordUpdate e.1 = true ∧ App.isPaymentUpdate e.1 = false := by
  intro e he
  unfold App.orderPart at he
  dsimp only at he
  split_ifs at he
  · simp only [List.mem_singleton] at he
    subst he
    exact ⟨rfl, rfl⟩
  · simp only [List.mem_cons, List.not_mem_nil, or_false] at he
    rcases he with rfl | rfl
    · exact ⟨rfl, rfl⟩
    · exact ⟨rfl, rfl⟩

/-- For a recognized event the derived order status is `pago` or `cancelado`. -/
theorem novoStatusPedido_recognized (et : Option String)
    (h : App.recognizedEvent et = true) :
    App.novoStatusPedido (et.getD "") = "pago"
      ∨ App.novoStatusPedido (et.getD "") = "cancelado" := by
  unfold App.recognizedEvent at h
  simp only [Bool.or_eq_true, beq_iff_eq] at h
  rcases h with (h | h) | h <;> rw [h] <;> decide

/-- Entries of the order-update part never carry the status `desconhecido`
when the event is recognized. -/
theorem orderPart_desconhecido (p : WebhookPayload) (fl : App.FailFlags)
    (hrec : App.recognizedEvent p.type = true) :
    ∀ e ∈ App.orderPart p fl, App.usesDesconhecido e.1 = false := by
  have hne : App.novoStatusPedido (p.type.getD "") ≠ "desconhecido" := by
    rcases novoStatusPedido_recognized p.type hrec with h | h <;> rw [h] <;> decide
  intro e he
  unfold App.orderPart at he
  dsimp only at he
  split_ifs at he
  · simp only [List.mem_singleton] at he
    subst he
    simp [App.usesDesconhecido, hne]
  · simp only [List.mem_cons, List.not_mem_nil, or_false] at he
    rcases he with rfl | rfl <;> simp [App.usesDesconhecido, hne]

/-- The trace of one webhook run takes exactly one of four shapes, according to
whether the event is recognized, whether the payment update raised, and whether
the order-flow guard holds. -/
theorem webhookTrace_eq_cases (parsed : Option WebhookPayload) (fl : App.FailFlags) :
    (App.recognizedEvent (parsed.getD WebhookPayload.empty).type = false
      ∧ App.webhookTrace parsed fl
        = [(.salvarWebhook ((parsed.getD WebhookPayload.empty).type.getD "")
            (parsed.getD WebhookPayload.empty), !fl.salvarWebhook)])
    ∨ (App.recognizedEvent (parsed.getD WebhookPayload.empty).type = true
      ∧ App.paymentRaised (parsed.getD WebhookPayload.empty) fl = true
      ∧ App.webhookTrace parsed fl
        = (.salvarWebhook ((parsed.getD WebhookPayload.empty).type.getD "")
            (parsed.getD WebhookPayload.empty), !fl.salvarWebhook)
          :: App.paymentPart (parsed.getD WebhookPayload.empty) fl)
    ∨ (App.recognizedEvent (parsed.getD WebhookPayload.empty).type = true
      ∧ App.paymentRaised (parsed.getD WebhookPayload.empty) fl = false
      ∧ App.pedidoCondition (parsed.getD WebhookPayload.empty) = true
      ∧ App.webhookTrace parsed fl
        = (.salvarWebhook ((parsed.getD WebhookPayload.empty).type.getD "")
            (parsed.getD WebhookPayload.empty), !fl.salvarWebhook)
          :: (App.paymentPart (parsed.getD WebhookPayload.empty) fl
              ++ App.orderPart (parsed.getD WebhookPayload.empty) fl))
    ∨ (App.recognizedEvent (parsed.getD WebhookPayload.empty).type = true
      ∧ App.paymentRaised (parsed.getD WebhookPayload.empty) fl = false
      ∧ App.pedidoCondition (parsed.getD WebhookPayload.empty) = false
      ∧ App.webhookTrace parsed fl
        = (.salvarWebhook ((parsed.getD WebhookPayload.empty).type.getD "")
            (parsed.getD WebhookPayload.empty), !fl.salvarWebhook)
          :: App.paymentPart (parsed.getD WebhookPayload.empty) fl) := by
  unfold App.webhookTrace
  dsimp only
  split_ifs with h1 h2 h3
  · exact Or.inr (Or.inl ⟨h1, h2, rfl⟩)
  · exact Or.inr (Or.inr (Or.inl ⟨h1, by simpa using h2, h3, rfl⟩))
  · exact Or.inr (Or.inr (Or.inr ⟨h1, by simpa using h2, by simpa using h3, rfl⟩))
  · exact Or.inl ⟨by simpa using h1, rfl⟩

/-! Claim C9. -/

/-- C9: on no input and no failure pattern does the webhook handler ever issue
an order-header or line-item update carrying the fallback status
`desconhecido`: the order-flow branch is reached only for the three recognized
event types, each of which maps to `pago` or `cancelado`. -/
theorem webhook_desconhecido_unreachable (parsed : Option WebhookPayload)
    (fl : App.FailFlags) :
    (App.webhookTrace parsed fl).all (fun e => !(App.usesDesconhecido e.1)) = true := by
  rcases webhookTrace_eq_cases parsed fl with ⟨h, htr⟩ | ⟨hrec, hpr, htr⟩ |
    ⟨hrec, hpr, hpc, htr⟩ | ⟨hrec, hpr, hpc, htr⟩ <;>
  rw [htr] <;>
  simp only [List.all_eq_true, List.mem_cons, List.mem_append, List.not_mem_nil,
    or_false]
  · rintro e rfl
    rfl
  · rintro e (rfl | he)
    · rfl
    · simp [(paymentPart_mem _ fl e he).2.2]
  · rintro e (rfl | he | he)
    · rfl
    · simp [(paymentPart_mem _ fl e he).2.2]
    · simp [(orderPart_desconhecido _ fl hrec e he)]
  · rintro e (rfl | he)
    · rfl
    · simp [(paymentPart_mem _ fl e he).2.2]

/-- The payment-record updates attempted by a webhook run are exactly the
payment part of the trace (when the event is recognized), independent of the
order-update failure flags. -/
theorem webhookTrace_filter_payment (parsed : Option WebhookPayload) (fl : App.FailFlags) :
    ((App.webhookTrace parsed fl).map Prod.fst).filter App.isPaymentUpdate
      = if App.recognizedEvent (parsed.getD WebhookPayload.empty).type
        then (App.paymentPart (parsed.getD WebhookPayload.empty) fl).map Prod.fst
        else [] := by
  have hpay : ((App.paymentPart (parsed.getD WebhookPayload.empty) fl).map Prod.fst).filter
      App.isPaymentUpdate
      = (App.paymentPart (parsed.getD WebhookPayload.empty) fl).map Prod.fst := by
    apply List.filter_eq_self.mpr
    intro c hc
    obtain ⟨e, he, rfl⟩ := List.mem_map.mp hc
    exact (paymentPart_mem _ fl e he).1
  have hord : ((App.orderPart (parsed.getD WebhookPayload.empty) fl).map Prod.fst).filter
      App.isPaymentUpdate = [] := by
    apply List.filter_eq_nil_iff.mpr
    intro c hc
    obtain ⟨e, he, rfl⟩ := List.mem_map.mp hc
    simp [(orderPart_mem _ fl e he).2]
  rcases webhookTrace_eq_cases parsed fl with ⟨h, htr⟩ | ⟨h, h2, htr⟩ |
    ⟨h, h2, h3, htr⟩ | ⟨h, h2, h3, htr⟩ <;>
    rw [htr, h] <;>
    simp only [List.map_cons, List.map_append, List.map_nil, List.filter_cons,
      List.filter_append, if_true, if_false]
  · rfl
  · rw [hpay]
    simp [App.isPaymentUpdate, App.isLinkUpdate, App.isOrderIdUpdate]
  · rw [hpay, hord]
    simp [App.isPaymentUpdate, App.isLinkUpdate, App.isOrderIdUpdate]
  · rw [hpay]
    simp [App.isPaymentUpdate, App.isLinkUpdate, App.isOrderIdUpdate]

/-! Claim C2. -/

/-- C2 counterexample: for the recognized event `order.paid` whose metadata
carries a payment-link id, the order discriminator and a purchase reference,
a raised exception in the payment-record update prevents the order-record
update from being attempted (first conjunct), although with no failure the
order-record update is attempted (second conjunct). -/
theorem webhook_payment_failure_blocks_order_update :
    ((App.webhookTrace (some exPedidoPayload) exFailLink).map Prod.fst).all
        (fun c => !(App.isOrderRecordUpdate c)) = true
    ∧ ((App.webhookTrace (some exPedidoPayload) App.noFailFlags).map Prod.fst).any
        App.isOrderRecordUpdate = true := by
  exact ⟨by decide, by decide⟩

/-- C2 amended: a failure in the order-record update (header or line items)
does not change which payment-record updates are attempted — but not vice
versa: when the payment-record update raises, the outer exception handler
aborts the block and no order-record update is attempted. -/
theorem webhook_failure_isolation_amended (parsed : Option WebhookPayload)
    (fl : App.FailFlags) (b1 b2 : Bool) :
    (((App.webhookTrace parsed
          { fl with atualizarStatusPedido := b1, marcarItens := b2 }).map Prod.fst).filter
        App.isPaymentUpdate
      = ((App.webhookTrace parsed fl).map Prod.fst).filter App.isPaymentUpdate)
    ∧ (App.paymentRaised (parsed.getD WebhookPayload.empty) fl = true →
        ∀ c ∈ (App.webhookTrace parsed fl).map Prod.fst,
          App.isOrderRecordUpdate c = false) := by
  constructor
  · rw [webhookTrace_filter_payment parsed { fl with atualizarStatusPedido := b1, marcarItens := b2 },
      webhookTrace_filter_payment parsed fl]
    rfl
  · intro h c hc
    rcases webhookTrace_eq_cases parsed fl with ⟨h1, htr⟩ | ⟨h1, h2, htr⟩ |
      ⟨h1, h2, h3, htr⟩ | ⟨h1, h2, h3, htr⟩
    · rw [htr] at hc
      simp only [List.map_cons, List.map_nil, List.mem_singleton] at hc
      subst hc
      rfl
    · rw [htr] at hc
      simp only [List.map_cons, List.mem_cons] at hc
      rcases hc with rfl | hc
      · rfl
      · obtain ⟨e, he, rfl⟩ := List.mem_map.mp hc
        exact (paymentPart_mem _ fl e he).2.1
    · rw [h] at h2
      cases h2
    · rw [h] at h2
      cases h2

/-- Witness for the C2 amended theorem at a concrete payload and failure
pattern in which the payment-record update raises. -/
theorem webhook_failure_isolation_amended_witness :
    (((App.webhookTrace (some exPedidoPayload)
          { exFailLink with atualizarStatusPedido := true, marcarItens := true }).map
          Prod.fst).filter App.isPaymentUpdate
      = ((App.webhookTrace (some exPedidoPayload) exFailLink).map Prod.fst).filter
          App.isPaymentUpdate)
    ∧ (∀ c ∈ (App.webhookTrace (some exPedidoPayload) exFailLink).map Prod.fst,
        App.isOrderRecordUpdate c = false) :=
  ⟨(webhook_failure_isolation_amended (some exPedidoPayload) exFailLink true true).1,
   (webhook_failure_isolation_amended (some exPedidoPayload) exFailLink true true).2
     (by decide)⟩

/-! Claim C7. -/

/-- A call that is not a payment-record update is neither a link update nor an
order-id update. -/
theorem isPaymentUpdate_false_parts {c : App.Call} (h : App.isPaymentUpdate c = false) :
    App.isLinkUpdate c = false ∧ App.isOrderIdUpdate c = false := by
  cases c <;> simp_all [App.isPaymentUpdate, App.isLinkUpdate, App.isOrderIdUpdate]

/-- The payment part of the trace, case by case on the routing condition. -/
theorem paymentPart_eq (p : WebhookPayload) (fl : App.FailFlags) :
    (truthyS (App.metadataOf p).payment_link_id = true →
      App.paymentPart p fl
        = [(.atualizarPagamentoPorPaymentLink ((App.metadataOf p).payment_link_id.getD "")
              (p.type.getD "")
              (if truthyS (App.dataObjOf p).id then some ((App.dataObjOf p).id.getD "")
               else none),
            !fl.atualizarPagamentoLink)])
    ∧ (truthyS (App.metadataOf p).payment_link_id = false →
       truthyS (App.dataObjOf p).id = true →
      App.paymentPart p fl
        = [(.atualizarPagamentoPorOrderId ((App.dataObjOf p).id.getD "") (p.type.getD ""),
            !fl.atualizarPagamentoOrder)])
    ∧ (truthyS (App.metadataOf p).payment_link_id = false →
       truthyS (App.dataObjOf p).id = false →
      App.paymentPart p fl = []) := by
  refine ⟨?_, ?_, ?_⟩
  · intro h1
    unfold App.paymentPart
    dsimp only
    rw [if_pos h1]
  · intro h1 h2
    unfold App.paymentPart
    dsimp only
    rw [if_neg (by simp [h1]), if_pos h2]
  · intro h1 h2
    unfold App.paymentPart
    dsimp only
    rw [if_neg (by simp [h1]), if_neg (by simp [h2])]

/-- For a recognized event, the trace is the audit insert, then the payment
part, then a tail made only of order-record updates. -/
theorem webhookTrace_tail (p : WebhookPayload) (fl : App.FailFlags)
    (hrec : App.recognizedEvent p.type = true) :
    ∃ tail : List (App.Call × Bool),
      App.webhookTrace (some p) fl
        = (.salvarWebhook (p.type.getD "") p, !fl.salvarWebhook)
          :: (App.paymentPart p fl ++ tail)
      ∧ ∀ e ∈ tail, App.isOrderRecordUpdate e.1 = true ∧ App.isPaymentUpdate e.1 = false := by
  rcases webhookTrace_eq_cases (some p) fl with ⟨h, htr⟩ | ⟨h, h2, htr⟩ |
    ⟨h, h2, h3, htr⟩ | ⟨h, h2, h3, htr⟩ <;>
    simp only [Option.getD_some] at h htr
  · exact absurd h (by simp [hrec])
  · exact ⟨[], by simpa using htr, by simp⟩
  · exact ⟨App.orderPart p fl, by simpa using htr, orderPart_mem p fl⟩
  · exact ⟨[], by simpa using htr, by simp⟩

/-- C7: for every recognized webhook event, a truthy link-id routes the payment
update through `atualizar_pagamento_por_payment_link` (with the order id as an
extra field exactly when it is truthy) and never through the order-id path;
with no truthy link-id but a truthy order id, the update goes through
`atualizar_pagamento_por_order_id` and never through the link path; with
neither, no payment-record update is attempted at all. -/
theorem webhook_payment_record_routing (p : WebhookPayload) (fl : App.FailFlags)
    (hrec : App.recognizedEvent p.type = true) :
    (truthyS (App.metadataOf p).payment_link_id = true →
      (App.Call.atualizarPagamentoPorPaymentLink ((App.metadataOf p).payment_link_id.getD "")
          (p.type.getD "")
          (if truthyS (App.dataObjOf p).id then some ((App.dataObjOf p).id.getD "") else none))
        ∈ (App.webhookTrace (some p) fl).map Prod.fst
      ∧ ∀ c ∈ (App.webhookTrace (some p) fl).map Prod.fst, App.isOrderIdUpdate c = false)
    ∧ (truthyS (App.metadataOf p).payment_link_id = false →
       truthyS (App.dataObjOf p).id = true →
      (App.Call.atualizarPagamentoPorOrderId ((App.dataObjOf p).id.getD "") (p.type.getD ""))
        ∈ (App.webhookTrace (some p) fl).map Prod.fst
      ∧ ∀ c ∈ (App.webhookTrace (some p) fl).map Prod.fst, App.isLinkUpdate c = false)
    ∧ (truthyS (App.metadataOf p).payment_link_id = false →
       truthyS (App.dataObjOf p).id = false →
      ∀ c ∈ (App.webhookTrace (some p) fl).map Prod.fst, App.isPaymentUpdate c = false) := by
  obtain ⟨tail, htr, htail⟩ := webhookTrace_tail p fl hrec
  obtain ⟨hl1, hl2, hl3⟩ := paymentPart_eq p fl
  refine ⟨?_, ?_, ?_⟩
  · intro hl
    rw [htr, hl1 hl]
    constructor
    · simp
    · intro c hc
      simp only [List.map_cons, List.map_append, List.mem_cons, List.mem_append,
        List.map_nil, List.not_mem_nil, or_false] at hc
      rcases hc with rfl | hc
      · rfl
      rcases hc with rfl | hc
      · rfl
      · obtain ⟨e, he, rfl⟩ := List.mem_map.mp hc
        exact (isPaymentUpdate_false_parts (htail e he).2).2
  · intro hl hoid
    rw [htr, hl2 hl hoid]
    constructor
    · simp
    · intro c hc
      simp only [List.map_cons, List.map_append, List.mem_cons, List.mem_append,
        List.map_nil, List.not_mem_nil, or_false] at hc
      rcases hc with rfl | hc
      · rfl
      rcases hc with rfl | hc
      · rfl
      · obtain ⟨e, he, rfl⟩ := List.mem_map.mp hc
        exact (isPaymentUpdate_false_parts (htail e he).2).1
  · intro hl hoid c hc
    rw [htr, hl3 hl hoid] at hc
    simp only [List.map_cons, List.nil_append, List.mem_cons] at hc
    rcases hc with rfl | hc
    · rfl
    · obtain ⟨e, he, rfl⟩ := List.mem_map.mp hc
      exact (htail e he).2

/-- Witness for C7 at a concrete recognized event carrying both a link id and
an order id. -/
theorem webhook_payment_record_routing_witness :
    App.recognizedEvent exPedidoPayload.type = true
    ∧ truthyS (App.metadataOf exPedidoPayload).payment_link_id = true
    ∧ ((App.Call.atualizarPagamentoPorPaymentLink
          ((App.metadataOf exPedidoPayload).payment_link_id.getD "")
          (exPedidoPayload.type.getD "")
          (if truthyS (App.dataObjOf exPedidoPayload).id
           then some ((App.dataObjOf exPedidoPayload).id.getD "") else none))
        ∈ (App.webhookTrace (some exPedidoPayload) App.noFailFlags).map Prod.fst
      ∧ ∀ c ∈ (App.webhookTrace (some exPedidoPayload) App.noFailFlags).map Prod.fst,
          App.isOrderIdUpdate c = false) :=
  ⟨by decide, by decide,
   (webhook_payment_record_routing exPedidoPayload App.noFailFlags (by decide)).1
     (by decide)⟩

/-! Claim C6. -/

/-- C6 counterexample: the Payment-Link Client order operation rejects an item
whose quantity is negative — it raises `PagarmeError` instead of defaulting the
quantity to 1 — although the same item with quantity 1 is accepted, so the
quantity alone causes the failure. -/
theorem negative_quantity_rejected_counterexample :
    PagarmeClient.criar_link_pagamento_pedido "GC-1"
        [⟨some "Marmita", some (.vint 100), some (.vint (-1))⟩] exCliente []
      = .error (.pagarme "Item inválido ao criar link de pagamento de pedido")
    ∧ ∃ req, PagarmeClient.criar_link_pagamento_pedido "GC-1"
        [⟨some "Marmita", some (.vint 100), some (.vint 1)⟩] exCliente [] = .ok req :=
  ⟨rfl, ⟨_, rfl⟩⟩

/-- C6 amended: in the cart checkout flow (`api_pedidos_checkout`) a quantity
that is absent, unparseable, or non-positive is coerced to exactly 1 (so the
coerced quantity is always at least 1) and the item loop fails only on account
of a bad price, never a quantity; in the Payment-Link Client order operation an
absent quantity defaults to 1 and the item is accepted, but a negative or
unparseable quantity makes the operation fail. -/
theorem quantity_defaulting_amended :
    App.coagir_quantidade none = 1
    ∧ (∀ s : String, pyStrToInt s = none →
        App.coagir_quantidade (some (.vstr s)) = 1)
    ∧ (∀ n : Int, n ≤ 0 → App.coagir_quantidade (some (.vint n)) = 1)
    ∧ (∀ q : Option PyVal, 1 ≤ App.coagir_quantidade q)
    ∧ (∀ (rows : List SupabaseClient.PedidoRow) (e : Nat × String),
        App.montar_itens rows = .error e → ∃ r ∈ rows, pyFloat r.preco = none)
    ∧ (∀ (n : String) (a : Int), n ≠ "" → 0 < a →
        PagarmeClient.processItens [⟨some n, some (.vint a), none⟩]
          = .ok [⟨a, n, 1⟩])
    ∧ (∀ (n : String) (a : Int), n ≠ "" → 0 < a →
        PagarmeClient.processItens [⟨some n, some (.vint a), some (.vint 0)⟩]
          = .ok [⟨a, n, 1⟩])
    ∧ (∀ (nc : String) (cliente : PagarmeClient.Cliente)
        (extra : List (String × String)) (nm : Option String) (a n : Int), n < 0 →
        PagarmeClient.criar_link_pagamento_pedido nc
            [⟨nm, some (.vint a), some (.vint n)⟩] cliente extra
          = .error (.pagarme "Item inválido ao criar link de pagamento de pedido"))
    ∧ (∀ (nc : String) (cliente : PagarmeClient.Cliente)
        (extra : List (String × String)) (nm : Option String) (a : Int)
        (s : String), s ≠ "" → pyStrToInt s = none →
        PagarmeClient.criar_link_pagamento_pedido nc
            [⟨nm, some (.vint a), some (.vstr s)⟩] cliente extra
          = .error .valueError) := by
  refine ⟨rfl, ?_, ?_, coagir_quantidade_pos, ?_, ?_, ?_, ?_, ?_⟩
  · intro s hs
    by_cases h : s = ""
    · subst h
      rfl
    · unfold App.coagir_quantidade
      rw [show pyOrV (some (PyVal.vstr s)) (.vint 1) = .vstr s from by
        simp [pyOrV, truthyV, h]]
      simp [pyToInt, hs]
  · intro n hn
    by_cases h : n = 0
    · subst h
      rfl
    · unfold App.coagir_quantidade
      rw [show pyOrV (some (PyVal.vint n)) (.vint 1) = .vint n from by
        simp [pyOrV, truthyV, h]]
      simp [pyToInt, hn]
  · intro rows
    induction rows with
    | nil =>
      intro e h
      simp [App.montar_itens] at h
    | cons r rest ih =>
      intro e h
      unfold App.montar_itens at h
      dsimp only at h
      cases hf : pyFloat r.preco with
      | none => exact ⟨r, List.mem_cons_self r rest, hf⟩
      | some f =>
        rw [hf] at h
        dsimp only at h
        cases hm : App.montar_itens rest with
        | error e' =>
          rw [hm] at h
          obtain ⟨r', hr', hp⟩ := ih e' hm
          exact ⟨r', List.mem_cons_of_mem r hr', hp⟩
        | ok pr =>
          obtain ⟨its, total⟩ := pr
          rw [hm] at h
          simp at h
  · intro n a hn ha
    have hcond : ¬(¬ truthyS (some n) = true ∨ a ≤ 0 ∨ (1 : Int) ≤ 0) := by
      push_neg
      refine ⟨by simp [truthyS, hn], by omega, by omega⟩
    unfold PagarmeClient.processItens
    dsimp only [pyToInt, pyOrV, Option.getD]
    rw [if_neg hcond]
    rfl
  · intro n a hn ha
    have hcond : ¬(¬ truthyS (some n) = true ∨ a ≤ 0 ∨ (1 : Int) ≤ 0) := by
      push_neg
      refine ⟨by simp [truthyS, hn], by omega, by omega⟩
    conv_lhs => rw [PagarmeClient.processItens]
    dsimp only [Option.getD]
    rw [show pyOrV (some (PyVal.vint 0)) (.vint 1) = .vint 1 from by decide]
    dsimp only [pyToInt]
    rw [if_neg hcond]
    rfl
  · intro nc cliente extra nm a n hn
    have hp : PagarmeClient.processItens [⟨nm, some (.vint a), some (.vint n)⟩]
        = .error (.pagarme "Item inválido ao criar link de pagamento de pedido") := by
      conv_lhs => rw [PagarmeClient.processItens]
      dsimp only [Option.getD]
      rw [show pyOrV (some (PyVal.vint n)) (.vint 1) = .vint n from by
        simp [pyOrV, truthyV]
        omega]
      dsimp only [pyToInt]
      rw [if_pos (Or.inr (Or.inr (by omega)))]
    unfold PagarmeClient.criar_link_pagamento_pedido
    rw [if_neg (by simp), hp]
  · intro nc cliente extra nm a s hne hs
    have hp : PagarmeClient.processItens [⟨nm, some (.vint a), some (.vstr s)⟩]
        = .error .valueError := by
      conv_lhs => rw [PagarmeClient.processItens]
      dsimp only [Option.getD]
      rw [show pyOrV (some (PyVal.vstr s)) (.vint 1) = .vstr s from by
        simp [pyOrV, truthyV, hne]]
      dsimp only [pyToInt]
      rw [hs]
    unfold PagarmeClient.criar_link_pagamento_pedido
    rw [if_neg (by simp), hp]

/-- Witness for the C6 amended theorem: an unparseable or negative quantity is
coerced to exactly 1 by the checkout, an absent quantity is accepted by the
client with `default_quantity = 1`, and an unparseable quantity makes the
client operation fail. -/
theorem quantity_defaulting_amended_witness :
    App.coagir_quantidade (some (.vstr "abc")) = 1
    ∧ App.coagir_quantidade (some (.vint (-3))) = 1
    ∧ PagarmeClient.processItens [⟨some "Marmita", some (.vint 100), none⟩]
        = .ok [⟨100, "Marmita", 1⟩]
    ∧ PagarmeClient.processItens [⟨some "Marmita", some (.vint 100), some (.vint 0)⟩]
        = .ok [⟨100, "Marmita", 1⟩]
    ∧ PagarmeClient.criar_link_pagamento_pedido "GC-1"
        [⟨some "Marmita", some (.vint 100), some (.vstr "abc")⟩] exCliente []
        = .error .valueError :=
  ⟨quantity_defaulting_amended.2.1 "abc" (by decide),
   quantity_defaulting_amended.2.2.1 (-3) (by decide),
   quantity_defaulting_amended.2.2.2.2.2.1 "Marmita" 100 (by decide) (by decide),
   quantity_defaulting_amended.2.2.2.2.2.2.1 "Marmita" 100 (by decide) (by decide),
   quantity_defaulting_amended.2.2.2.2.2.2.2.2 "GC-1" exCliente [] (some "Marmita")
     100 "abc" (by decide) (by decide)⟩

/-! Claim C4. -/

/-- On success, the cart item loop yields exactly the item dicts built from the
rows and the total of minor-unit price × coerced quantity. -/
theorem montar_itens_ok (rows : List SupabaseClient.PedidoRow)
    (its : List PagarmeClient.ItemDict) (total : Int)
    (h : App.montar_itens rows = .ok (its, total)) :
    its = rows.map mkItemDict ∧ total = App.rowsTotalCents rows := by
  induction rows generalizing its total with
  | nil =>
    simp only [App.montar_itens, Except.ok.injEq, Prod.mk.injEq] at h
    obtain ⟨rfl, rfl⟩ := h
    exact ⟨rfl, rfl⟩
  | cons r rest ih =>
    unfold App.montar_itens at h
    dsimp only at h
    cases hf : pyFloat r.preco with
    | none =>
      rw [hf] at h
      simp at h
    | some f =>
      rw [hf] at h
      dsimp only at h
      cases hm : App.montar_itens rest with
      | error e =>
        rw [hm] at h
        simp at h
      | ok pr =>
        obtain ⟨its', total'⟩ := pr
        rw [hm] at h
        simp only [Except.ok.injEq, Prod.mk.injEq] at h
        obtain ⟨rfl, rfl⟩ := h
        obtain ⟨h1, h2⟩ := ih its' total' hm
        subst h1
        subst h2
        constructor
        · simp [List.map_cons, mkItemDict, App.rowCents, hf]
        · simp [App.rowsTotalCents, App.rowCents, hf]

/-- The Pagar.me item loop on the dicts built by the checkout either fails or
returns exactly the corresponding cart entries. -/
theorem processItens_cons_mk (r : SupabaseClient.PedidoRow)
    (rest : List PagarmeClient.ItemDict) :
    PagarmeClient.processItens (mkItemDict r :: rest)
      = if App.rowCents r ≤ 0 then
          .error (.pagarme "Item inválido ao criar link de pagamento de pedido")
        else
          match PagarmeClient.processItens rest with
          | .error e => .error e
          | .ok cart => .ok (mkCartReq r :: cart) := by
  have hq1 : 1 ≤ App.coagir_quantidade r.quantidade := coagir_quantidade_pos r.quantidade
  have hq' : pyOrV (some (.vint (App.coagir_quantidade r.quantidade))) (.vint 1)
      = .vint (App.coagir_quantidade r.quantidade) := by
    have : App.coagir_quantidade r.quantidade ≠ 0 := by omega
    simp [pyOrV, truthyV, this]
  have hn : truthyS (some (App.pratoOf r)) = true := by
    have := pyOrS_ne_empty r.prato "Item" (by decide)
    simpa [truthyS, App.pratoOf] using this
  conv_lhs => rw [PagarmeClient.processItens]
  dsimp only [mkItemDict]
  rw [hq']
  dsimp only [pyToInt, Option.getD]
  have hcond : (¬ truthyS (some (App.pratoOf r)) = true ∨ App.rowCents r ≤ 0
      ∨ App.coagir_quantidade r.quantidade ≤ 0) ↔ App.rowCents r ≤ 0 := by
    constructor
    · rintro (h | h | h)
      · exact absurd hn h
      · exact h
      · omega
    · intro h
      exact Or.inr (Or.inl h)
  by_cases hc : App.rowCents r ≤ 0
  · rw [if_pos (hcond.mpr hc), if_pos hc]
  · rw [if_neg (fun hx => hc (hcond.mp hx)), if_neg hc]
    rfl

/-- On success, the Pagar.me item loop returns exactly the cart entries built
from the rows. -/
theorem processItens_mapped (rows : List SupabaseClient.PedidoRow)
    (cart : List PagarmeClient.CartItemReq)
    (h : PagarmeClient.processItens (rows.map mkItemDict) = .ok cart) :
    cart = rows.map mkCartReq := by
  induction rows generalizing cart with
  | nil =>
    simp only [List.map_nil, PagarmeClient.processItens, Except.ok.injEq] at h
    exact h.symm
  | cons r rest ih =>
    rw [List.map_cons, processItens_cons_mk] at h
    by_cases hc : App.rowCents r ≤ 0
    · rw [if_pos hc] at h
      simp at h
    · rw [if_neg hc] at h
      cases hm : PagarmeClient.processItens (rest.map mkItemDict) with
      | error e =>
        rw [hm] at h
        simp at h
      | ok cart' =>
        rw [hm] at h
        simp only [Except.ok.injEq] at h
        obtain rfl := h
        rw [List.map_cons, ih cart' hm]

/-- When pedido link creation succeeds, the request items are exactly the
output of the item loop. -/
theorem criar_link_pedido_ok_items (nc : String) (its : List PagarmeClient.ItemDict)
    (cliente : PagarmeClient.Cliente) (extra : List (String × String))
    (req : PagarmeClient.LinkRequest)
    (h : PagarmeClient.criar_link_pagamento_pedido nc its cliente extra = .ok req) :
    PagarmeClient.processItens its = .ok req.items := by
  unfold PagarmeClient.criar_link_pagamento_pedido at h
  by_cases hi : its = []
  · rw [if_pos hi] at h
    simp at h
  · rw [if_neg hi] at h
    cases hp : PagarmeClient.processItens its with
    | error e =>
      rw [hp] at h
      simp at h
    | ok cart =>
      rw [hp] at h
      dsimp only at h
      by_cases he : ¬ truthyS cliente.email = true
      · rw [if_pos he] at h
        simp at h
      · rw [if_neg he] at h
        simp only [Except.ok.injEq] at h
        obtain rfl := h
        rfl

/-- Summing amount × quantity over the built cart entries gives the row total. -/
theorem requestTotal_map_rows (rows : List SupabaseClient.PedidoRow) :
    (List.map (fun i => i.amount * i.default_quantity) (rows.map mkCartReq)).sum
      = App.rowsTotalCents rows := by
  rw [List.map_map]
  rfl

/-- C4: when the cart checkout reaches the provider call, the computed total in
minor units is the sum over the loaded cart rows of (minor-unit price ×
coerced quantity), and it equals the sum of amount × default quantity over the
items serialized in the provider request; an empty cart row list makes the
checkout fail with HTTP 400 before any provider request is built. -/
theorem cart_checkout_total (ncOpt : Option String) (cliente : PagarmeClient.Cliente)
    (db : SupabaseClient.DB)
    (hnc : pyStrip (ncOpt.getD "") ≠ "")
    (hemail : truthyS cliente.email = true) :
    (SupabaseClient.listar_itens_carrinho db (pyStrip (ncOpt.getD "")) = [] →
      App.api_pedidos_checkout ncOpt cliente db
        = .error (400, "Carrinho vazio para este número de compra."))
    ∧ (∀ (total : Int) (req : PagarmeClient.LinkRequest),
        App.api_pedidos_checkout ncOpt cliente db = .ok (total, req) →
        total = App.rowsTotalCents
            (SupabaseClient.listar_itens_carrinho db (pyStrip (ncOpt.getD "")))
        ∧ total = PagarmeClient.requestTotalCents req) := by
  constructor
  · intro hempty
    unfold App.api_pedidos_checkout
    dsimp only
    rw [if_neg hnc, if_neg (by simp [hemail]), if_pos hempty]
  · intro total req h
    unfold App.api_pedidos_checkout at h
    dsimp only at h
    rw [if_neg hnc, if_neg (by simp [hemail])] at h
    by_cases hempty :
        SupabaseClient.listar_itens_carrinho db (pyStrip (ncOpt.getD "")) = []
    · rw [if_pos hempty] at h
      simp at h
    · rw [if_neg hempty] at h
      cases hm : App.montar_itens
          (SupabaseClient.listar_itens_carrinho db (pyStrip (ncOpt.getD ""))) with
      | error e =>
        rw [hm] at h
        simp at h
      | ok pr =>
        obtain ⟨its, total'⟩ := pr
        rw [hm] at h
        dsimp only at h
        cases hc : PagarmeClient.criar_link_pagamento_pedido (pyStrip (ncOpt.getD ""))
            its cliente [("origem", "pedido_marmita")] with
        | error e =>
          rw [hc] at h
          cases e <;> simp at h
        | ok req' =>
          rw [hc] at h
          simp only [Except.ok.injEq, Prod.mk.injEq] at h
          obtain ⟨rfl, rfl⟩ := h
          obtain ⟨hits, htot⟩ := montar_itens_ok _ its total' hm
          have hitems := criar_link_pedido_ok_items _ its cliente _ req' hc
          subst hits
          have hcart := processItens_mapped _ req'.items hitems
          refine ⟨htot, ?_⟩
          unfold PagarmeClient.requestTotalCents
          rw [hcart, requestTotal_map_rows]
          exact htot

/-- Witness for C4 at a concrete store: two cart rows for `GC-9` with prices
29.90 (string) × 2 and 10 (int) × default quantity. -/
theorem cart_checkout_total_witness :
    pyStrip ((some "GC-9" : Option String).getD "") ≠ ""
    ∧ truthyS exCliente.email = true
    ∧ ((SupabaseClient.listar_itens_carrinho exDB
          (pyStrip ((some "GC-9" : Option String).getD "")) = [] →
        App.api_pedidos_checkout (some "GC-9") exCliente exDB
          = .error (400, "Carrinho vazio para este número de compra."))
      ∧ (∀ (total : Int) (req : PagarmeClient.LinkRequest),
          App.api_pedidos_checkout (some "GC-9") exCliente exDB = .ok (total, req) →
          total = App.rowsTotalCents
              (SupabaseClient.listar_itens_carrinho exDB
                (pyStrip ((some "GC-9" : Option String).getD "")))
          ∧ total = PagarmeClient.requestTotalCents req)) :=
  ⟨by decide, by decide,
   cart_checkout_total (some "GC-9") exCliente exDB (by decide) (by decide)⟩

/-! Claim C1. -/

/-- Unfolding step: applying a successful call at the head of a trace. -/
theorem applyTrace_cons_true (now : String) (db : SupabaseClient.DB) (c : App.Call)
    (t : List (App.Call × Bool)) :
    App.applyTrace now db ((c, true) :: t) = App.applyTrace now (App.applyCall now db c) t := rfl

/-- Unfolding step: a trace split into two segments. -/
theorem applyTrace_append (now : String) (db : SupabaseClient.DB)
    (t1 t2 : List (App.Call × Bool)) :
    App.applyTrace now db (t1 ++ t2) = App.applyTrace now (App.applyTrace now db t1) t2 := by
  unfold App.applyTrace
  exact List.foldl_append _ _ _ _

/-- Unfolding step: the empty trace. -/
theorem applyTrace_nil (now : String) (db : SupabaseClient.DB) :
    App.applyTrace now db [] = db := rfl

/-- The audit insert does not touch the order tables. -/
theorem applyCall_salvar_frame (now : String) (db : SupabaseClient.DB)
    (e : String) (p' : WebhookPayload) :
    (App.applyCall now db (.salvarWebhook e p')).pedidos_header = db.pedidos_header
    ∧ (App.applyCall now db (.salvarWebhook e p')).pedidos = db.pedidos := ⟨rfl, rfl⟩

/-- The header status update maps the header table and leaves line items. -/
theorem applyCall_status_effect (now : String) (db : SupabaseClient.DB)
    (nc st : String) (tx : Option String) :
    (App.applyCall now db (.atualizarStatusPedido nc st tx)).pedidos_header
      = db.pedidos_header.map (fun h =>
          if h.numero_compra = nc then
            SupabaseClient.applyStatusUpdate
              (SupabaseClient.atualizar_status_pedido_update_data st tx now) h
          else h)
    ∧ (App.applyCall now db (.atualizarStatusPedido nc st tx)).pedidos = db.pedidos := ⟨rfl, rfl⟩

/-- The line-item bulk update maps the item table and leaves headers. -/
theorem applyCall_marcar_effect (now : String) (db : SupabaseClient.DB) (nc st : String) :
    (App.applyCall now db (.marcarItensComStatus nc st)).pedidos_header = db.pedidos_header
    ∧ (App.applyCall now db (.marcarItensComStatus nc st)).pedidos
      = db.pedidos.map (fun r => if r.numero_compra = nc then { r with status := st } else r) :=
  ⟨rfl, rfl⟩

/-- Payment-record updates do not touch the order tables. -/
theorem applyTrace_paymentPart_frame (p : WebhookPayload) (fl : App.FailFlags)
    (now : String) (db : SupabaseClient.DB) :
    (App.applyTrace now db (App.paymentPart p fl)).pedidos_header = db.pedidos_header
    ∧ (App.applyTrace now db (App.paymentPart p fl)).pedidos = db.pedidos := by
  unfold App.paymentPart
  dsimp only
  split_ifs <;>
    constructor <;>
    first
      | rfl
      | (unfold App.applyTrace
         dsimp only [List.foldl]
         split <;> rfl)

/-- With no store failures and the order-flow guard satisfied, one webhook run
maps the order-header table through the status update and the line-item table
through the bulk status update, both keyed on the purchase reference. -/
theorem runWebhookDB_pedido_tables (p : WebhookPayload) (db : SupabaseClient.DB)
    (now X : String)
    (hrec : App.recognizedEvent p.type = true)
    (htipo : pyOr (App.metadataOf p).tipo (App.metadataOf p).tipo_assinatura = some "pedido")
    (hnum : (App.metadataOf p).numero_compra = some X)
    (hX : X ≠ "") :
    (App.runWebhookDB (some p) App.noFailFlags now db).pedidos_header
      = db.pedidos_header.map (fun h =>
          if h.numero_compra = X then
            SupabaseClient.applyStatusUpdate
              (SupabaseClient.atualizar_status_pedido_update_data
                (App.novoStatusPedido (p.type.getD "")) (App.dataObjOf p).id now) h
          else h)
    ∧ (App.runWebhookDB (some p) App.noFailFlags now db).pedidos
      = db.pedidos.map (fun r =>
          if r.numero_compra = X then
            { r with status := App.novoStatusPedido (p.type.getD "") }
          else r) := by
  have hpc : App.pedidoCondition p = true := by
    unfold App.pedidoCondition
    rw [htipo, hnum]
    simp [truthyS, hX]
  have hpr : App.paymentRaised p App.noFailFlags = false := by
    unfold App.paymentRaised
    split_ifs <;> rfl
  have hop : App.orderPart p App.noFailFlags
      = [(.atualizarStatusPedido X (App.novoStatusPedido (p.type.getD ""))
            (App.dataObjOf p).id, true),
         (.marcarItensComStatus X (App.novoStatusPedido (p.type.getD "")), true)] := by
    unfold App.orderPart
    dsimp only
    rw [hnum]
    simp [App.noFailFlags]
  rcases webhookTrace_eq_cases (some p) App.noFailFlags with ⟨h, htr⟩ | ⟨h, h2, htr⟩ |
    ⟨h, h2, h3, htr⟩ | ⟨h, h2, h3, htr⟩ <;>
    simp only [Option.getD_some] at h htr
  · exact absurd h (by simp [hrec])
  · simp only [Option.getD_some] at h2
    rw [hpr] at h2
    cases h2
  · have htr2 : App.webhookTrace (some p) App.noFailFlags
        = (.salvarWebhook (p.type.getD "") p, true)
          :: (App.paymentPart p App.noFailFlags
              ++ [(.atualizarStatusPedido X (App.novoStatusPedido (p.type.getD ""))
                    (App.dataObjOf p).id, true),
                  (.marcarItensComStatus X (App.novoStatusPedido (p.type.getD "")), true)]) := by
      rw [htr, hop]
      rfl
    unfold App.runWebhookDB
    rw [htr2, applyTrace_cons_true, applyTrace_append, applyTrace_cons_true,
      applyTrace_cons_true, applyTrace_nil]
    constructor
    · rw [(applyCall_marcar_effect now _ X _).1, (applyCall_status_effect now _ X _ _).1,
        (applyTrace_paymentPart_frame p App.noFailFlags now _).1,
        (applyCall_salvar_frame now db _ p).1]
    · rw [(applyCall_marcar_effect now _ X _).2, (applyCall_status_effect now _ X _ _).2,
        (applyTrace_paymentPart_frame p App.noFailFlags now _).2,
        (applyCall_salvar_frame now db _ p).2]
  · simp only [Option.getD_some] at h3
    rw [hpc] at h3
    cases h3

/-- C1: for a webhook whose metadata carries the order discriminator and a
purchase reference X, the recognized paid event types (`order.paid`,
`charge.paid`) set the stored status of the order header for X and of every
line item for X to `pago`; `checkout.closed` with the same metadata sets both
to `cancelado` (and hence never `pago`). -/
theorem webhook_paid_event_sets_order_status (p : WebhookPayload)
    (db : SupabaseClient.DB) (now X : String)
    (htipo : pyOr (App.metadataOf p).tipo (App.metadataOf p).tipo_assinatura = some "pedido")
    (hnum : (App.metadataOf p).numero_compra = some X)
    (hX : X ≠ "") :
    ((p.type = some "order.paid" ∨ p.type = some "charge.paid") →
      (∀ h ∈ (App.runWebhookDB (some p) App.noFailFlags now db).pedidos_header,
          h.numero_compra = X → h.status = "pago")
      ∧ (∀ r ∈ (App.runWebhookDB (some p) App.noFailFlags now db).pedidos,
          r.numero_compra = X → r.status = "pago"))
    ∧ (p.type = some "checkout.closed" →
      (∀ h ∈ (App.runWebhookDB (some p) App.noFailFlags now db).pedidos_header,
          h.numero_compra = X → h.status = "cancelado")
      ∧ (∀ r ∈ (App.runWebhookDB (some p) App.noFailFlags now db).pedidos,
          r.numero_compra = X → r.status = "cancelado")) := by
  have key : ∀ st : String, App.recognizedEvent p.type = true →
      App.novoStatusPedido (p.type.getD "") = st →
      (∀ h ∈ (App.runWebhookDB (some p) App.noFailFlags now db).pedidos_header,
          h.numero_compra = X → h.status = st)
      ∧ (∀ r ∈ (App.runWebhookDB (some p) App.noFailFlags now db).pedidos,
          r.numero_compra = X → r.status = st) := by
    intro st hrec hst
    obtain ⟨hh, hp2⟩ := runWebhookDB_pedido_tables p db now X hrec htipo hnum hX
    constructor
    · intro h hmem hx
      rw [hh] at hmem
      obtain ⟨h0, hh0, rfl⟩ := List.mem_map.mp hmem
      by_cases hc : h0.numero_compra = X
      · rw [if_pos hc]
        exact hst
      · rw [if_neg hc] at hx
        exact absurd hx hc
    · intro r hmem hx
      rw [hp2] at hmem
      obtain ⟨r0, hr0, rfl⟩ := List.mem_map.mp hmem
      by_cases hc : r0.numero_compra = X
      · rw [if_pos hc]
        exact hst
      · rw [if_neg hc] at hx
        exact absurd hx hc
  constructor
  · intro hev
    apply key "pago"
    · rcases hev with h | h <;> rw [h] <;> decide
    · rcases hev with h | h <;> rw [h] <;> decide
  · intro hev
    apply key "cancelado"
    · rw [hev]
      decide
    · rw [hev]
      decide

/-- Witness for C1 at a concrete `order.paid` payload and store. -/
theorem webhook_paid_event_sets_order_status_witness :
    pyOr (App.metadataOf exPedidoPayload).tipo
        (App.metadataOf exPedidoPayload).tipo_assinatura = some "pedido"
    ∧ (App.metadataOf exPedidoPayload).numero_compra = some "GC-9"
    ∧ "GC-9" ≠ ""
    ∧ (((exPedidoPayload.type = some "order.paid"
          ∨ exPedidoPayload.type = some "charge.paid") →
        (∀ h ∈ (App.runWebhookDB (some exPedidoPayload) App.noFailFlags "t1"
              exDB).pedidos_header,
            h.numero_compra = "GC-9" → h.status = "pago")
        ∧ (∀ r ∈ (App.runWebhookDB (some exPedidoPayload) App.noFailFlags "t1"
              exDB).pedidos,
            r.numero_compra = "GC-9" → r.status = "pago"))
      ∧ (exPedidoPayload.type = some "checkout.closed" →
        (∀ h ∈ (App.runWebhookDB (some exPedidoPayload) App.noFailFlags "t1"
              exDB).pedidos_header,
            h.numero_compra = "GC-9" → h.status = "cancelado")
        ∧ (∀ r ∈ (App.runWebhookDB (some exPedidoPayload) App.noFailFlags "t1"
              exDB).pedidos,
            r.numero_compra = "GC-9" → r.status = "cancelado"))) :=
  ⟨by decide, by decide, by decide,
   webhook_paid_event_sets_order_status exPedidoPayload exDB "t1" "GC-9"
     (by decide) (by decide) (by decide)⟩
